import Mathlib

/-
Verification development for the CalPal repository.

The development shallowly embeds the parts of the code base that the
behavioural claims are about:

* `src/services/geminiService.ts` — the four AI analysis operations
  (`analyzeFoodImage`, `getNutritionRecommendations`, `analyzeExercise`,
  `analyzeWeightTrends`), their payload extraction, JSON decoding and
  per-field normalization.  JavaScript runtime values are modelled with
  the inductive `JVal`; `JSON.parse` is modelled by `jsonParse`, a strict
  fuel-based recursive-descent JSON reader; the regular-expression
  extractions are modelled by `matchPat1`/`matchPat2`/`matchPat3` (the
  three-pattern chain) and `extractExercise` (the single greedy pattern of
  `analyzeExercise`).  The external network interaction is abstracted by
  `GeminiResponse`: either a transport failure (non-ok status or a thrown
  exception while obtaining the text) or a success carrying the model's
  free text.  Each operation additionally reports whether the network
  request was issued (second component of the returned pair).

* `src/app/index.tsx` (`AuthProvider`) — the auth state listener is the
  step function `authStep` over `AuthState`; `signIn`, `signUp`,
  `signOut`, `deleteAccount` are modelled with the outcome of the awaited
  remote operation as an explicit `Except` argument.

* `src/unnamed/part_001` — the RevenueCat configuration helpers
  `getApiKey`, `validateRevenueCatConfig`, `configureRevenueCat`.  The
  billing SDK calls are abstracted by `Except` outcomes;
  `configureRevenueCat` additionally reports the API key handed to the
  SDK (`none` when the SDK was never called).
-/

/-- JavaScript runtime values as produced by `JSON.parse` (plus `null`,
booleans, numbers, strings, arrays and objects).  Numbers are modelled as
rationals; `JSON.parse` can produce neither `NaN` nor infinities. -/
inductive JVal where
  | jnull : JVal
  | jbool (b : Bool) : JVal
  | jnum (q : Rat) : JVal
  | jstr (s : String) : JVal
  | jarr (xs : List JVal) : JVal
  | jobj (fields : List (String × JVal)) : JVal

/-- Left brace character, kept as a named constant. -/
def lbrace : Char := Char.ofNat 123

/-- Right brace character, kept as a named constant. -/
def rbrace : Char := Char.ofNat 125

/-- Association lookup where the last binding of a key wins, matching the
semantics of duplicate keys in a JavaScript object literal produced by
`JSON.parse`. -/
def lookupLast : List (String × JVal) → String → Option JVal
  | [], _ => none
  | (k', v) :: rest, k =>
    match lookupLast rest k with
    | some r => some r
    | none => if k' = k then some v else none

/-- Property access `v[k]` on a JavaScript value: `undefined` (here
`none`) unless `v` is an object with the field. -/
def JVal.getField : JVal → String → Option JVal
  | JVal.jobj fields, k => lookupLast fields k
  | _, _ => none

/-- Runtime type test `typeof v === "number"`. -/
def JVal.isNum : JVal → Bool
  | JVal.jnum _ => true
  | _ => false

/-- JavaScript truthiness of a defined value. -/
def truthy : JVal → Bool
  | JVal.jnull => false
  | JVal.jbool b => b
  | JVal.jnum q => decide (q ≠ 0)
  | JVal.jstr s => decide (s ≠ "")
  | JVal.jarr _ => true
  | JVal.jobj _ => true

/-- JavaScript `a || d` where `a` is a possibly-`undefined` property. -/
def jsOr (v : Option JVal) (d : JVal) : JVal :=
  match v with
  | some x => if truthy x then x else d
  | none => d

/-- The check `typeof x === "number" ? x : d` used by the normalizers. -/
def numOr (v : Option JVal) (d : Rat) : JVal :=
  match v with
  | some (JVal.jnum q) => JVal.jnum q
  | _ => JVal.jnum d

/-- The check `typeof x === "string" ? x : d` used by the normalizers. -/
def strOr (v : Option JVal) (d : String) : String :=
  match v with
  | some (JVal.jstr s) => s
  | _ => d

/-- The check `Array.isArray(x) ? x : d` used by the normalizers. -/
def arrOr (v : Option JVal) (d : List JVal) : List JVal :=
  match v with
  | some (JVal.jarr xs) => xs
  | _ => d

/-- JSON whitespace skipping (space, tab, line feed, carriage return). -/
def skipWs : List Char → List Char
  | c :: rest =>
    if c = ' ' ∨ c = '\t' ∨ c = '\n' ∨ c = '\r' then skipWs rest else c :: rest
  | [] => []

/-- Longest leading run of decimal digits, returned as digit values. -/
def takeDigits : List Char → List Nat × List Char
  | c :: rest =>
    if c.isDigit then
      let p := takeDigits rest
      ((c.toNat - 48) :: p.1, p.2)
    else ([], c :: rest)
  | [] => ([], [])

/-- Digit list to natural number, most significant digit first. -/
def digitsToNat (ds : List Nat) : Nat :=
  ds.foldl (fun a d => a * 10 + d) 0

/-- Ten to a natural power. -/
def tenPow (k : Nat) : Nat := 10 ^ k

/-- Assembles a rational from sign, integer digits, fraction digits and a
signed decimal exponent, as the value `± mantissa · 10^(±e - |fds|)`. -/
def mkNum (neg : Bool) (ids fds : List Nat) (eneg : Bool) (e : Nat) : Rat :=
  let m : Nat := digitsToNat (ids ++ fds)
  let sign : Int := if neg then -(m : Int) else (m : Int)
  if eneg then mkRat sign (tenPow (fds.length + e))
  else mkRat (sign * ((tenPow e : Nat) : Int)) (tenPow fds.length)

/-- Exponent part of a JSON number, after mantissa digits are read. -/
def parseExpPart (neg : Bool) (ids fds : List Nat) :
    List Char → Option (Rat × List Char)
  | c :: rest =>
    if c = 'e' ∨ c = 'E' then
      let sr : Bool × List Char :=
        match rest with
        | '+' :: t => (false, t)
        | '-' :: t => (true, t)
        | _ => (false, rest)
      let p := takeDigits sr.2
      if p.1.isEmpty then none
      else some (mkNum neg ids fds sr.1 (digitsToNat p.1), p.2)
    else some (mkNum neg ids fds false 0, c :: rest)
  | [] => some (mkNum neg ids fds false 0, [])

/-- JSON number literal. -/
def parseNumber (cs : List Char) : Option (Rat × List Char) :=
  let sr : Bool × List Char :=
    match cs with
    | '-' :: t => (true, t)
    | _ => (false, cs)
  let ip := takeDigits sr.2
  if ip.1.isEmpty then none
  else
    match ip.2 with
    | '.' :: t =>
      let fp := takeDigits t
      if fp.1.isEmpty then none
      else parseExpPart sr.1 ip.1 fp.1 fp.2
    | _ => parseExpPart sr.1 ip.1 [] ip.2

/-- Hexadecimal digit value. -/
def hexVal (c : Char) : Option Nat :=
  if '0' ≤ c ∧ c ≤ '9' then some (c.toNat - 48)
  else if 'a' ≤ c ∧ c ≤ 'f' then some (c.toNat - 87)
  else if 'A' ≤ c ∧ c ≤ 'F' then some (c.toNat - 55)
  else none

/-- Body of a JSON string literal after the opening quote; `acc` holds the
characters read so far, reversed.  Unescaped control characters are
rejected as `JSON.parse` rejects them. -/
def parseStrAux : List Char → List Char → Option (String × List Char)
  | acc, '"' :: rest => some (String.mk acc.reverse, rest)
  | acc, '\\' :: 'u' :: a :: b :: c :: d :: rest =>
    match hexVal a, hexVal b, hexVal c, hexVal d with
    | some ha, some hb, some hc, some hd =>
      parseStrAux (Char.ofNat (((ha * 16 + hb) * 16 + hc) * 16 + hd) :: acc) rest
    | _, _, _, _ => none
  | acc, '\\' :: e :: rest =>
    if e = '"' then parseStrAux ('"' :: acc) rest
    else if e = '\\' then parseStrAux ('\\' :: acc) rest
    else if e = '/' then parseStrAux ('/' :: acc) rest
    else if e = 'n' then parseStrAux ('\n' :: acc) rest
    else if e = 't' then parseStrAux ('\t' :: acc) rest
    else if e = 'r' then parseStrAux ('\r' :: acc) rest
    else if e = 'b' then parseStrAux (Char.ofNat 8 :: acc) rest
    else if e = 'f' then parseStrAux (Char.ofNat 12 :: acc) rest
    else none
  | acc, c :: rest =>
    if c.toNat < 32 then none else parseStrAux (c :: acc) rest
  | _, [] => none

/-- Parsing modes of the JSON reader: a single value, the items of a
non-empty array, or the members of a non-empty object. -/
inductive PMode where
  | value : PMode
  | arrItems : PMode
  | objItems : PMode

/-- Intermediate results of the JSON reader. -/
inductive PRes where
  | val (v : JVal) : PRes
  | items (vs : List JVal) : PRes
  | members (ms : List (String × JVal)) : PRes

/-- Fuel-based recursive-descent JSON reader (model of the grammar
accepted by `JSON.parse`).  Structural recursion on the fuel keeps every
equation kernel-reducible. -/
def parseP : Nat → PMode → List Char → Option (PRes × List Char)
  | 0, _, _ => none
  | Nat.succ fuel, PMode.value, cs0 =>
    match skipWs cs0 with
    | 'n' :: 'u' :: 'l' :: 'l' :: rest => some (PRes.val JVal.jnull, rest)
    | 't' :: 'r' :: 'u' :: 'e' :: rest => some (PRes.val (JVal.jbool true), rest)
    | 'f' :: 'a' :: 'l' :: 's' :: 'e' :: rest => some (PRes.val (JVal.jbool false), rest)
    | '"' :: rest =>
      match parseStrAux [] rest with
      | some (s, rest2) => some (PRes.val (JVal.jstr s), rest2)
      | none => none
    | '[' :: rest =>
      (match skipWs rest with
       | c2 :: rest2 =>
         if c2 = ']' then some (PRes.val (JVal.jarr []), rest2)
         else
           match parseP fuel PMode.arrItems (c2 :: rest2) with
           | some (PRes.items vs, rest3) => some (PRes.val (JVal.jarr vs), rest3)
           | _ => none
       | [] => none)
    | c :: rest =>
      if c = lbrace then
        match skipWs rest with
        | c2 :: rest2 =>
          if c2 = rbrace then some (PRes.val (JVal.jobj []), rest2)
          else
            match parseP fuel PMode.objItems (c2 :: rest2) with
            | some (PRes.members ms, rest3) => some (PRes.val (JVal.jobj ms), rest3)
            | _ => none
        | [] => none
      else
        match parseNumber (c :: rest) with
        | some (q, rest2) => some (PRes.val (JVal.jnum q), rest2)
        | none => none
    | [] => none
  | Nat.succ fuel, PMode.arrItems, cs0 =>
    match parseP fuel PMode.value cs0 with
    | some (PRes.val v, rest) =>
      (match skipWs rest with
       | ',' :: rest2 =>
         (match parseP fuel PMode.arrItems rest2 with
          | some (PRes.items vs, rest3) => some (PRes.items (v :: vs), rest3)
          | _ => none)
       | c :: rest2 => if c = ']' then some (PRes.items [v], rest2) else none
       | [] => none)
    | _ => none
  | Nat.succ fuel, PMode.objItems, cs0 =>
    match skipWs cs0 with
    | '"' :: rest =>
      (match parseStrAux [] rest with
       | some (k, rest2) =>
         (match skipWs rest2 with
          | ':' :: rest3 =>
            (match parseP fuel PMode.value rest3 with
             | some (PRes.val v, rest4) =>
               (match skipWs rest4 with
                | ',' :: rest5 =>
                  (match parseP fuel PMode.objItems rest5 with
                   | some (PRes.members ms, rest6) =>
                     some (PRes.members ((k, v) :: ms), rest6)
                   | _ => none)
                | c :: rest5 =>
                  if c = rbrace then some (PRes.members [(k, v)], rest5) else none
                | [] => none)
             | _ => none)
          | _ => none)
       | none => none)
    | _ => none

/-- Model of `JSON.parse`: reads one JSON value and requires that only
whitespace follows it; any violation is a thrown `SyntaxError`, modelled
as `none`. -/
def jsonParse (s : String) : Option JVal :=
  let cs := s.toList
  match parseP (2 * cs.length + 2) PMode.value cs with
  | some (PRes.val v, rest) => if (skipWs rest).isEmpty then some v else none
  | _ => none

/-- Index of the first occurrence of `pat` as a contiguous sublist. -/
def findSubFrom (pat : List Char) : List Char → Option Nat
  | [] => if pat.isEmpty then some 0 else none
  | c :: rest =>
    if pat.isPrefixOf (c :: rest) then some 0
    else (findSubFrom pat rest).map (fun n => n + 1)

/-- Index of the last occurrence of a character. -/
def lastIdxOf (ch : Char) : List Char → Option Nat
  | [] => none
  | x :: rest =>
    match lastIdxOf ch rest with
    | some k => some (k + 1)
    | none => if x = ch then some 0 else none

/-- Result of a successful regular-expression match: the whole matched
span (`match[0]`) and the first capture group (`match[1]`) when the
pattern has one. -/
structure RMatch where
  full : String
  group1 : Option String
deriving DecidableEq

/-- Opening token of the fenced-and-labeled pattern. -/
def fenceJsonOpen : List Char := "```json\n".toList

/-- Closing token of the fenced-and-labeled pattern. -/
def fenceJsonClose : List Char := "\n```".toList

/-- Fence token of the unlabeled pattern. -/
def fenceTok : List Char := "```".toList

/-- Generic leftmost-then-lazy match of `op ([\s\S]*?) cl`: the first
occurrence of the opening token followed by the earliest occurrence of
the closing token.  If the first opening token has no later closing
token, no later opening token has one either, so this is the regex's
leftmost match. -/
def matchDelim (op cl : List Char) (text : String) : Option RMatch :=
  let cs := text.toList
  match findSubFrom op cs with
  | none => none
  | some i =>
    let afterOpen := (cs.drop i).drop op.length
    match findSubFrom cl afterOpen with
    | none => none
    | some k =>
      some { full := String.mk ((cs.drop i).take (op.length + k + cl.length)),
             group1 := some (String.mk (afterOpen.take k)) }

/-- First candidate pattern: fenced-and-labeled block. -/
def matchPat1 (text : String) : Option RMatch :=
  matchDelim fenceJsonOpen fenceJsonClose text

/-- Second candidate pattern: fenced-unlabeled block. -/
def matchPat2 (text : String) : Option RMatch :=
  matchDelim fenceTok fenceTok text

/-- Third candidate pattern: first bare bracketed-object span (first
opening brace to the earliest closing brace after it, lazily); this
pattern has no capture group. -/
def matchPat3 (text : String) : Option RMatch :=
  let cs := text.toList
  match findSubFrom [lbrace] cs with
  | none => none
  | some i =>
    let after := (cs.drop i).drop 1
    match findSubFrom [rbrace] after with
    | none => none
    | some k =>
      some { full := String.mk (lbrace :: (after.take k ++ [rbrace])),
             group1 := none }

/-- The ordered three-pattern extraction chain shared verbatim by
`analyzeFoodImage`, `getNutritionRecommendations` and
`analyzeWeightTrends`: first pattern that matches wins, none matching
means no payload was found. -/
def extractJson (text : String) : Option RMatch :=
  match matchPat1 text with
  | some m => some m
  | none =>
    match matchPat2 text with
    | some m => some m
    | none => matchPat3 text

/-- String handed to `JSON.parse`: `jsonMatch[1] || jsonMatch[0]` — the
capture group when present and truthy (non-empty), otherwise the whole
matched span. -/
def matchJsonStr (m : RMatch) : String :=
  match m.group1 with
  | some g => if g = "" then m.full else g
  | none => m.full

/-- The single greedy extraction of `analyzeExercise`: first opening
brace to the last closing brace of the whole text.  If the last closing
brace is not after the first opening brace, no opening brace has any
closing brace after it, so the regex does not match at all. -/
def extractExercise (text : String) : Option String :=
  let cs := text.toList
  match findSubFrom [lbrace] cs with
  | none => none
  | some i =>
    match lastIdxOf rbrace cs with
    | none => none
    | some j =>
      if i < j then some (String.mk ((cs.drop i).take (j - i + 1))) else none

/-- Outcome of one request to the generative-AI backend: a transport
failure (non-ok status, network error, or an exception raised while
reading the body) or a success carrying the model's free-text output
(`candidates[0].content.parts[0].text`). -/
inductive GeminiResponse where
  | transportError : GeminiResponse
  | success (text : String) : GeminiResponse

/-- Falsiness of `process.env.EXPO_PUBLIC_GEMINI_API_KEY`: the variable
is absent or the empty string. -/
def envFalsy : Option String → Bool
  | none => true
  | some s => decide (s = "")

/-- Extraction followed by decoding with per-kind fallback: the parsed
payload when one of the three patterns matched and `JSON.parse` of the
chosen string succeeded, otherwise the supplied default object. -/
def parsedOr (text : String) (d : JVal) : JVal :=
  match extractJson text with
  | none => d
  | some m =>
    match jsonParse (matchJsonStr m) with
    | none => d
    | some v => v

/-- Food analysis result after normalization (`interface AnalysisResult`
of `geminiService.ts`).  The numeric fields keep the runtime type `JVal`
so that the normalization guarantee is a theorem, not a typing
assumption. -/
structure AnalysisResult where
  title : String
  items : List JVal
  calories : JVal
  protein : JVal
  carbs : JVal
  fats : JVal

/-- Default food analysis result (`createDefaultResult`). -/
def createDefaultResult : AnalysisResult :=
  { title := "Unknown Meal"
    items := [JVal.jstr "Unknown food item"]
    calories := JVal.jnum 0
    protein := JVal.jnum 0
    carbs := JVal.jnum 0
    fats := JVal.jnum 0 }

/-- The object `createDefaultResult()` builds, as the JavaScript value
that flows into the final field-by-field normalization when no payload
was found or decoding failed. -/
def defaultFoodJVal : JVal :=
  JVal.jobj [("title", JVal.jstr "Unknown Meal"),
    ("items", JVal.jarr [JVal.jstr "Unknown food item"]),
    ("calories", JVal.jnum 0), ("protein", JVal.jnum 0),
    ("carbs", JVal.jnum 0), ("fats", JVal.jnum 0)]

/-- Field-by-field normalization of the food analysis payload
(lines 183–198 of `geminiService.ts`). -/
def normalizeFood (p : JVal) : AnalysisResult :=
  { title := strOr (p.getField "title") "Unknown Meal"
    items := arrOr (p.getField "items") [JVal.jstr "Unknown food item"]
    calories := numOr (p.getField "calories") 0
    protein := numOr (p.getField "protein") 0
    carbs := numOr (p.getField "carbs") 0
    fats := numOr (p.getField "fats") 0 }

/-- Model of `analyzeFoodImage`.  The returned Boolean records whether
the network request was issued. -/
def analyzeFoodImage (base64Image : String) (apiKey : Option String)
    (resp : GeminiResponse) : AnalysisResult × Bool :=
  if envFalsy apiKey then (createDefaultResult, false)
  else
    match resp with
    | GeminiResponse.transportError => (createDefaultResult, true)
    | GeminiResponse.success text =>
      (normalizeFood (parsedOr text defaultFoodJVal), true)

/-- Modelled from the spec: the `NutritionGoals` interface of the missing
`hooks/useProfile` module — daily `{calories, protein, carbs, fats}`
targets; the field set also matches the normalization code of
`getNutritionRecommendations`. -/
structure NutritionGoals where
  calories : JVal
  protein : JVal
  carbs : JVal
  fats : JVal

/-- Default nutrition goals (`createDefaultNutritionGoals`). -/
def createDefaultNutritionGoals : NutritionGoals :=
  { calories := JVal.jnum 2000
    protein := JVal.jnum 150
    carbs := JVal.jnum 200
    fats := JVal.jnum 65 }

/-- The object `createDefaultNutritionGoals()` builds, as a JavaScript
value. -/
def defaultNutritionJVal : JVal :=
  JVal.jobj [("calories", JVal.jnum 2000), ("protein", JVal.jnum 150),
    ("carbs", JVal.jnum 200), ("fats", JVal.jnum 65)]

/-- Field-by-field normalization of the nutrition recommendations payload
(lines 350–360 of `geminiService.ts`). -/
def normalizeNutrition (p : JVal) : NutritionGoals :=
  { calories := numOr (p.getField "calories") 2000
    protein := numOr (p.getField "protein") 150
    carbs := numOr (p.getField "carbs") 200
    fats := numOr (p.getField "fats") 65 }

/-- Modelled from the spec: the `UserStats` interface of the missing
`hooks/useProfile` module — the physical stats and goal fields the
prompts interpolate. -/
structure UserStats where
  startingWeight : Rat
  currentWeight : Rat
  goalWeight : Rat
  weeklyGoal : String
  activityLevel : String
  height : Rat
  age : Rat
  gender : String

/-- Formatted data optionally passed to `getNutritionRecommendations`
for prompt building only. -/
structure GeminiFormatted where
  age : String
  sex : String
  height : String
  weight : String
  activityLevel : String
  goal : String

/-- Model of `getNutritionRecommendations`.  The returned Boolean records
whether the network request was issued. -/
def getNutritionRecommendations (userStats : UserStats)
    (geminiData : Option GeminiFormatted) (apiKey : Option String)
    (resp : GeminiResponse) : NutritionGoals × Bool :=
  if envFalsy apiKey then (createDefaultNutritionGoals, false)
  else
    match resp with
    | GeminiResponse.transportError => (createDefaultNutritionGoals, true)
    | GeminiResponse.success text =>
      (normalizeNutrition (parsedOr text defaultNutritionJVal), true)

/-- Exercise entry handed to `analyzeExercise` (`interface
ExerciseData`). -/
structure ExerciseData where
  type : String
  duration : Rat
  description : String
  userStats : UserStats
  intensity : String

/-- Exercise analysis result (`interface ExerciseResult`).  All fields
keep the runtime type `JVal` because the normalization of
`analyzeExercise` uses JavaScript `||`, which lets any truthy payload
value through. -/
structure ExerciseResult where
  title : JVal
  caloriesBurned : JVal
  description : JVal

/-- The string `exerciseData.intensity || "Moderate"`. -/
def intensityOrModerate (i : String) : String :=
  if i = "" then "Moderate" else i

/-- The fallback title `"{type} ({intensity || Moderate})"`. -/
def defaultExerciseTitle (ed : ExerciseData) : String :=
  ed.type ++ " (" ++ intensityOrModerate ed.intensity ++ ")"

/-- The exercise result built in the catch branch of `analyzeExercise`. -/
def defaultExerciseResult (ed : ExerciseData) : ExerciseResult :=
  { title := JVal.jstr (defaultExerciseTitle ed)
    caloriesBurned := JVal.jnum 0
    description := JVal.jstr ed.description }

/-- Normalization of the exercise payload (lines 432–438 of
`geminiService.ts`): `a || b` on each field. -/
def normalizeExercise (ed : ExerciseData) (p : JVal) : ExerciseResult :=
  { title := jsOr (p.getField "title") (JVal.jstr (defaultExerciseTitle ed))
    caloriesBurned := jsOr (p.getField "caloriesBurned") (JVal.jnum 0)
    description := jsOr (p.getField "description") (JVal.jstr ed.description) }

/-- Model of `analyzeExercise`.  A missing key, a transport failure, a
text with no brace-delimited span and a `JSON.parse` failure all throw
and are absorbed by the outer catch, which returns the default result.
The returned Boolean records whether the request to the SDK was
issued. -/
def analyzeExercise (exerciseData : ExerciseData) (apiKey : Option String)
    (resp : GeminiResponse) : ExerciseResult × Bool :=
  if envFalsy apiKey then (defaultExerciseResult exerciseData, false)
  else
    match resp with
    | GeminiResponse.transportError => (defaultExerciseResult exerciseData, true)
    | GeminiResponse.success text =>
      match extractExercise text with
      | none => (defaultExerciseResult exerciseData, true)
      | some s =>
        match jsonParse s with
        | none => (defaultExerciseResult exerciseData, true)
        | some v => (normalizeExercise exerciseData v, true)

/-- One weight sample handed to `analyzeWeightTrends`; the date only
feeds the prompt. -/
structure WeightEntry where
  weight : Rat
  date : String

/-- The literal returned by `analyzeWeightTrends` when fewer than two
samples are supplied. -/
def notEnoughDataResult : JVal :=
  JVal.jobj [("trend", JVal.jstr "maintaining"),
    ("averageWeeklyChange", JVal.jnum 0),
    ("feedback", JVal.jstr "Not enough data to analyze trends. Keep logging your weight regularly."),
    ("recommendedActions", JVal.jarr [JVal.jstr "Continue logging your weight daily or weekly"])]

/-- The object `createDefaultWeightAnalysis()` builds. -/
def createDefaultWeightAnalysis : JVal :=
  JVal.jobj [("trend", JVal.jstr "maintaining"),
    ("averageWeeklyChange", JVal.jnum 0),
    ("feedback", JVal.jstr "We couldn't analyze your weight trends at this time. Keep logging your weight regularly."),
    ("recommendedActions", JVal.jarr [JVal.jstr "Continue logging your weight daily or weekly",
      JVal.jstr "Stay consistent with your nutrition plan",
      JVal.jstr "Make sure to track all your meals and exercises"])]

/-- Model of `analyzeWeightTrends`.  The parsed payload is returned as
the raw JavaScript value because the source returns `parsedResult`
without any field validation.  The returned Boolean records whether the
network request was issued. -/
def analyzeWeightTrends (weightData : List WeightEntry) (goalWeight : Rat)
    (weeklyGoal : String) (apiKey : Option String) (resp : GeminiResponse) :
    JVal × Bool :=
  if weightData.length < 2 then (notEnoughDataResult, false)
  else if envFalsy apiKey then (createDefaultWeightAnalysis, false)
  else
    match resp with
    | GeminiResponse.transportError => (createDefaultWeightAnalysis, true)
    | GeminiResponse.success text =>
      (parsedOr text createDefaultWeightAnalysis, true)

/-- Firebase user as seen by the auth listener. -/
structure FirebaseUser where
  uid : String
  email : Option String
deriving DecidableEq

/-- The app's user representation (`type User` of `src/app/index.tsx`). -/
structure User where
  id : String
  email : Option String
deriving DecidableEq

/-- Conversion `formatUser` from the Firebase user to the app user. -/
def formatUser : Option FirebaseUser → Option User
  | none => none
  | some fu => some { id := fu.uid, email := fu.email }

/-- State of the `AuthProvider` component: the four `useState` cells. -/
structure AuthState where
  user : Option User
  isLoading : Bool
  authReady : Bool
  initializing : Bool
deriving DecidableEq

/-- Initial component state: `user=null`, `isLoading=true`,
`authReady=false`, `initializing=true`. -/
def initialAuthState : AuthState :=
  { user := none, isLoading := true, authReady := false, initializing := true }

/-- Navigation helper `handleAuthNavigation`: route of the
`router.replace` call chosen from the mapped user. -/
def handleAuthNavigation : Option User → String
  | some _ => "/"
  | none => "/(onboarding)/welcome"

/-- One firing of the `onAuthStateChanged` listener: updates the state
cells and returns the navigation side effect (`none` when no
`router.replace` happens, which is exactly the still-initializing first
event). -/
def authStep (s : AuthState) (payload : Option FirebaseUser) :
    AuthState × Option String :=
  let fu := formatUser payload
  let s1 : AuthState :=
    { user := fu
      isLoading := false
      authReady := if s.authReady then s.authReady else true
      initializing := s.initializing }
  if s.initializing then ({ s1 with initializing := false }, none)
  else (s1, some (handleAuthNavigation fu))

/-- State part of one listener firing. -/
def stepState (s : AuthState) (e : Option FirebaseUser) : AuthState :=
  (authStep s e).1

/-- Component state after a sequence of upstream auth-state events,
processed serially in arrival order. -/
def runAuth (evs : List (Option FirebaseUser)) : AuthState :=
  evs.foldl stepState initialAuthState

/-- A JavaScript error as observed by the catch blocks: an optional
Firebase error code plus a message. -/
structure JSError where
  code : Option String
  message : String
deriving DecidableEq

/-- Model of `signIn`: sets `isLoading=true`, awaits the remote sign-in
(whose outcome is the explicit argument), and on failure resets
`isLoading=false` and re-raises.  On success `isLoading` stays `true`;
the auth listener later resets it. -/
def signIn (s : AuthState) (outcome : Except JSError FirebaseUser) :
    AuthState × Except JSError Unit :=
  let s1 : AuthState := { s with isLoading := true }
  match outcome with
  | Except.ok _ => (s1, Except.ok ())
  | Except.error e => ({ s1 with isLoading := false }, Except.error e)

/-- Model of `signUp`, same control flow as `signIn` around the remote
account-creation call. -/
def signUp (s : AuthState) (outcome : Except JSError FirebaseUser) :
    AuthState × Except JSError Unit :=
  let s1 : AuthState := { s with isLoading := true }
  match outcome with
  | Except.ok _ => (s1, Except.ok ())
  | Except.error e => ({ s1 with isLoading := false }, Except.error e)

/-- Model of `signOut`: sets `isLoading=true`, clears the stored session
and signs out remotely (outcome argument), resetting and re-raising on
failure. -/
def signOut (s : AuthState) (outcome : Except JSError Unit) :
    AuthState × Except JSError Unit :=
  let s1 : AuthState := { s with isLoading := true }
  match outcome with
  | Except.ok _ => (s1, Except.ok ())
  | Except.error e => ({ s1 with isLoading := false }, Except.error e)

/-- The re-login instruction `deleteAccount` substitutes for a
`auth/requires-recent-login` failure. -/
def recentLoginMessage : String :=
  "For security reasons, please sign out and sign in again before deleting your account."

/-- Model of `deleteAccount`: sets `isLoading=true`; with no current user
it raises "No authenticated user found"; otherwise it awaits the
session-clear plus remote deletion (outcome argument) and translates
exactly the `auth/requires-recent-login` failure into
`recentLoginMessage`, passing every other failure through; every failure
path resets `isLoading=false`. -/
def deleteAccount (s : AuthState) (currentUser : Option FirebaseUser)
    (outcome : Except JSError Unit) : AuthState × Except JSError Unit :=
  let s1 : AuthState := { s with isLoading := true }
  match currentUser with
  | none =>
    ({ s1 with isLoading := false },
     Except.error { code := none, message := "No authenticated user found" })
  | some _ =>
    match outcome with
    | Except.ok _ => (s1, Except.ok ())
    | Except.error e =>
      if e.code = some "auth/requires-recent-login" then
        ({ s1 with isLoading := false },
         Except.error { code := none, message := recentLoginMessage })
      else ({ s1 with isLoading := false }, Except.error e)

/-- RevenueCat API keys (`RC_API_KEYS`), already defaulted to the empty
string when the build-config entry is absent. -/
structure RCKeys where
  IOS : String
  ANDROID : String
deriving DecidableEq

/-- Product identifiers (`RC_PRODUCT_IDS`). -/
structure RCProductIds where
  PREMIUM_MONTHLY : String
  PREMIUM_YEARLY : String

/-- The hardcoded product identifiers. -/
def RC_PRODUCT_IDS : RCProductIds :=
  { PREMIUM_MONTHLY := "com.calpal.ai.Monthly"
    PREMIUM_YEARLY := "com.calpal.ai.Annual" }

/-- Entitlement identifiers (`RC_ENTITLEMENTS`). -/
structure RCEntitlements where
  PREMIUM : String

/-- The hardcoded entitlement identifier. -/
def RC_ENTITLEMENTS : RCEntitlements := { PREMIUM := "Premium" }

/-- Offering identifiers (`RC_OFFERINGS`). -/
structure RCOfferings where
  DEFAULT : String

/-- The hardcoded offering identifier. -/
def RC_OFFERINGS : RCOfferings := { DEFAULT := "ofrng44a064495d" }

/-- Platform-dependent key selection (`getApiKey`): the iOS key on
`"ios"`, the Android key on every other platform. -/
def getApiKey (os : String) (keys : RCKeys) : String :=
  if os = "ios" then keys.IOS else keys.ANDROID

/-- Model of `validateRevenueCatConfig`: the two platform-conditional
key checks followed by the product, entitlement and offering identifier
checks (a JavaScript `!s` test on a string is an emptiness test). -/
def validateRevenueCatConfig (os : String) (keys : RCKeys) : Bool :=
  if os = "ios" ∧ keys.IOS = "" then false
  else if os = "android" ∧ keys.ANDROID = "" then false
  else if RC_PRODUCT_IDS.PREMIUM_MONTHLY = "" ∨ RC_PRODUCT_IDS.PREMIUM_YEARLY = "" then false
  else if RC_ENTITLEMENTS.PREMIUM = "" then false
  else if RC_OFFERINGS.DEFAULT = "" then false
  else true

/-- Model of `configureRevenueCat`.  The first component is the returned
Boolean; the second is the API key handed to `Purchases.configure`, or
`none` when validation failed and the SDK was never called.
`configureOutcome` is the outcome of `Purchases.configure` (a failure is
absorbed by the outer catch, returning `false`); `warmupOutcome` is the
outcome of the best-effort `Purchases.getCustomerInfo` warm-up, whose
failure is only logged. -/
def configureRevenueCat (os : String) (keys : RCKeys)
    (configureOutcome warmupOutcome : Except Unit Unit) : Bool × Option String :=
  if validateRevenueCatConfig os keys then
    match configureOutcome with
    | Except.error _ => (false, some (getApiKey os keys))
    | Except.ok _ =>
      match warmupOutcome with
      | Except.error _ => (true, some (getApiKey os keys))
      | Except.ok _ => (true, some (getApiKey os keys))
  else (false, none)

/-- Example user stats used by the concrete evaluations. -/
def usExample : UserStats :=
  { startingWeight := 80, currentWeight := 78, goalWeight := 72
    weeklyGoal := "lose", activityLevel := "moderate"
    height := 175, age := 30, gender := "male" }

/-- Example exercise entry used by the concrete evaluations. -/
def edExample : ExerciseData :=
  { type := "Running", duration := 30, description := "Morning run"
    userStats := usExample, intensity := "High" }

/-- Two weight samples, enough data for the trend analysis. -/
def wdExample : List WeightEntry :=
  [{ weight := 80, date := "2024-01-01" }, { weight := 79, date := "2024-01-08" }]

/-- A transport-successful response text whose embedded payload carries a
string where `caloriesBurned` should be a number. -/
def exerciseBadText : String := "\x7b\"caloriesBurned\":\"oops\"\x7d"

/-- A transport-successful response text whose embedded payload omits
`averageWeeklyChange` entirely. -/
def weightBadText : String := "\x7b\"trend\":\"losing\",\"feedback\":\"Nice work\"\x7d"

/-- The food payload of the per-field fallback test: `calories` is
ill-typed, every other field is well-typed. -/
def saladText : String :=
  "\x7b\"title\":\"Salad\",\"items\":[\"lettuce\"],\"calories\":\"oops\",\"protein\":5,\"carbs\":10,\"fats\":2\x7d"

/-- A text with two disjoint brace spans, on which the three-pattern
chain and the greedy single pattern select different payloads. -/
def twoSpanText : String := "\x7b\"a\": 1\x7d and \x7b\"b\": 2\x7d"

/-- A fenced-and-labeled response text. -/
def fencedText : String := "```json\n\x7b\"a\": 1\x7d\n```"

/-- Helper: the number check of the normalizers always yields a number. -/
theorem numOr_isNum (v : Option JVal) (d : Rat) : (numOr v d).isNum = true := by
  cases v with
  | none => rfl
  | some x => cases x <;> rfl

/-- Helper: every listener firing leaves `authReady` set. -/
theorem stepState_authReady (s : AuthState) (e : Option FirebaseUser) :
    (stepState s e).authReady = true := by
  cases hi : s.initializing <;> cases ha : s.authReady <;>
    simp [stepState, authStep, hi, ha]

/-- Helper: every listener firing leaves `initializing` cleared. -/
theorem stepState_initializing (s : AuthState) (e : Option FirebaseUser) :
    (stepState s e).initializing = false := by
  cases hi : s.initializing <;> simp [stepState, authStep, hi]

/-- Helper: `authReady` stays set across any further events. -/
theorem foldl_authReady (evs : List (Option FirebaseUser)) :
    ∀ s : AuthState, s.authReady = true →
      (evs.foldl stepState s).authReady = true := by
  induction evs with
  | nil => intro s h; exact h
  | cons e rest ih => intro s _; exact ih _ (stepState_authReady s e)

/-- Helper: `initializing` stays cleared across any further events. -/
theorem foldl_initializing (evs : List (Option FirebaseUser)) :
    ∀ s : AuthState, s.initializing = false →
      (evs.foldl stepState s).initializing = false := by
  induction evs with
  | nil => intro s h; exact h
  | cons e rest ih => intro s _; exact ih _ (stepState_initializing s e)

/-- Helper: after at least one event the component is out of its
initializing phase. -/
theorem runAuth_initializing (evs : List (Option FirebaseUser)) (h : evs ≠ []) :
    (runAuth evs).initializing = false := by
  cases evs with
  | nil => exact absurd rfl h
  | cons e rest => exact foldl_initializing rest _ (stepState_initializing _ _)

/-- C2: for each of the four analysis operations, an absent or empty
`EXPO_PUBLIC_GEMINI_API_KEY` means no network call is performed and the
kind-specific default result is returned (for `analyzeWeightTrends`
under the precondition that at least 2 weight samples are supplied,
since the sample-count check comes first). -/
theorem missing_key_skips_network (img : String) (key : Option String)
    (resp : GeminiResponse) (us : UserStats) (gd : Option GeminiFormatted)
    (ed : ExerciseData) (wd : List WeightEntry) (gw : Rat) (wg : String)
    (hk : envFalsy key = true) (hwd : 2 ≤ wd.length) :
    analyzeFoodImage img key resp = (createDefaultResult, false) ∧
    getNutritionRecommendations us gd key resp = (createDefaultNutritionGoals, false) ∧
    analyzeExercise ed key resp = (defaultExerciseResult ed, false) ∧
    analyzeWeightTrends wd gw wg key resp = (createDefaultWeightAnalysis, false) := by
  have hlt : ¬ wd.length < 2 := Nat.not_lt.mpr hwd
  refine ⟨?_, ?_, ?_, ?_⟩ <;>
    simp [analyzeFoodImage, getNutritionRecommendations, analyzeExercise,
      analyzeWeightTrends, hk, hlt]

/-- C2 witness: concrete run of all four operations with a missing key. -/
theorem missing_key_skips_network_witness :
    analyzeFoodImage "" none GeminiResponse.transportError = (createDefaultResult, false) ∧
    getNutritionRecommendations usExample none none GeminiResponse.transportError = (createDefaultNutritionGoals, false) ∧
    analyzeExercise edExample none GeminiResponse.transportError = (defaultExerciseResult edExample, false) ∧
    analyzeWeightTrends wdExample 72 "lose" none GeminiResponse.transportError = (createDefaultWeightAnalysis, false) :=
  missing_key_skips_network "" none GeminiResponse.transportError usExample none
    edExample wdExample 72 "lose" rfl (by decide)

/-- C3: with the payload whose `calories` is the string `"oops"` embedded
in a transport-successful response, only that field falls back to its
literal default 0; title, items and the well-typed numeric fields are
kept. -/
theorem food_per_field_fallback :
    analyzeFoodImage "img" (some "key") (GeminiResponse.success saladText) =
      ({ title := "Salad", items := [JVal.jstr "lettuce"], calories := JVal.jnum 0,
         protein := JVal.jnum 5, carbs := JVal.jnum 10, fats := JVal.jnum 2 }, true) := by
  rfl

/-- C4: fewer than 2 weight samples short-circuit `analyzeWeightTrends`
to the not-enough-data literal before the key check and before any
network call, for every key and every possible response. -/
theorem weight_short_circuit (wd : List WeightEntry) (gw : Rat) (wg : String)
    (key : Option String) (resp : GeminiResponse) (h : wd.length < 2) :
    analyzeWeightTrends wd gw wg key resp = (notEnoughDataResult, false) := by
  simp [analyzeWeightTrends, h]

/-- C4 witness: concrete single-sample run. -/
theorem weight_short_circuit_witness :
    analyzeWeightTrends [{ weight := 80, date := "2024-01-01" }] 72 "lose"
      (some "key") (GeminiResponse.success "\x7b\"trend\":\"losing\"\x7d") =
      (notEnoughDataResult, false) :=
  weight_short_circuit [{ weight := 80, date := "2024-01-01" }] 72 "lose"
    (some "key") (GeminiResponse.success "\x7b\"trend\":\"losing\"\x7d") (by decide)

/-- C1 counterexample: with the key present and a transport-successful
response, `analyzeWeightTrends` returns a result whose
`averageWeeklyChange` is absent, and `analyzeExercise` returns a result
whose `caloriesBurned` is the string `"oops"` — the invariant fails as
stated over all four operations. -/
theorem numeric_invariant_counterexample :
    ((analyzeWeightTrends wdExample 72 "lose" (some "key")
        (GeminiResponse.success weightBadText)).1.getField "averageWeeklyChange" = none) ∧
    ((analyzeExercise edExample (some "key")
        (GeminiResponse.success exerciseBadText)).1.caloriesBurned = JVal.jstr "oops") :=
  ⟨rfl, rfl⟩

/-- C1 amended: the numeric-field invariant holds for `analyzeFoodImage`
and `getNutritionRecommendations` over every possible key and response,
but not for `analyzeExercise` (whose `||` normalization keeps any truthy
non-number) and not for `analyzeWeightTrends` (which returns the parsed
payload without field validation, so a numeric field can even be
absent). -/
theorem numeric_invariant_amended :
    (∀ img key resp,
      (analyzeFoodImage img key resp).1.calories.isNum = true ∧
      (analyzeFoodImage img key resp).1.protein.isNum = true ∧
      (analyzeFoodImage img key resp).1.carbs.isNum = true ∧
      (analyzeFoodImage img key resp).1.fats.isNum = true) ∧
    (∀ us gd key resp,
      (getNutritionRecommendations us gd key resp).1.calories.isNum = true ∧
      (getNutritionRecommendations us gd key resp).1.protein.isNum = true ∧
      (getNutritionRecommendations us gd key resp).1.carbs.isNum = true ∧
      (getNutritionRecommendations us gd key resp).1.fats.isNum = true) ∧
    ((analyzeExercise edExample (some "key")
        (GeminiResponse.success exerciseBadText)).1.caloriesBurned.isNum = false) ∧
    (((analyzeWeightTrends wdExample 72 "lose" (some "key")
        (GeminiResponse.success weightBadText)).1.getField "averageWeeklyChange").isNone = true) := by
  refine ⟨?_, ?_, rfl, rfl⟩
  · intro img key resp
    cases hk : envFalsy key <;> cases resp <;>
      simp only [analyzeFoodImage, hk, Bool.false_eq_true, if_false, if_true, normalizeFood] <;>
      first
      | exact ⟨rfl, rfl, rfl, rfl⟩
      | exact ⟨numOr_isNum _ _, numOr_isNum _ _, numOr_isNum _ _, numOr_isNum _ _⟩
  · intro us gd key resp
    cases hk : envFalsy key <;> cases resp <;>
      simp only [getNutritionRecommendations, hk, Bool.false_eq_true, if_false, if_true,
        normalizeNutrition] <;>
      first
      | exact ⟨rfl, rfl, rfl, rfl⟩
      | exact ⟨numOr_isNum _ _, numOr_isNum _ _, numOr_isNum _ _, numOr_isNum _ _⟩

/-- C5 counterexample: on a text with two disjoint brace spans, the
three-pattern chain selects the first lazy span while the extraction of
`analyzeExercise` selects the greedy first-to-last span — the extraction
step is not identical across all four analysis kinds. -/
theorem extraction_counterexample :
    (extractJson twoSpanText).map matchJsonStr = some "\x7b\"a\": 1\x7d" ∧
    extractExercise twoSpanText = some twoSpanText ∧
    (extractJson twoSpanText).map matchJsonStr ≠ extractExercise twoSpanText := by
  refine ⟨rfl, rfl, ?_⟩
  intro h
  simp only [twoSpanText] at h
  exact absurd (Option.some.inj h) (by decide)

/-- C5 amended: the fenced-and-labeled, fenced-unlabeled, bare-span
chain with first-match-wins (and no match meaning no payload) is the
extraction of `analyzeFoodImage`, `getNutritionRecommendations` and
`analyzeWeightTrends`; `analyzeExercise` instead uses a single greedy
bare-object pattern, which can select a different payload. -/
theorem extraction_order_amended :
    (∀ t m, matchPat1 t = some m → extractJson t = some m) ∧
    (∀ t m, matchPat1 t = none → matchPat2 t = some m → extractJson t = some m) ∧
    (∀ t, matchPat1 t = none → matchPat2 t = none → extractJson t = matchPat3 t) ∧
    (∃ t, (extractJson t).map matchJsonStr ≠ extractExercise t) := by
  refine ⟨?_, ?_, ?_, ⟨twoSpanText, ?_⟩⟩
  · intro t m h; simp [extractJson, h]
  · intro t m h1 h2; simp [extractJson, h1, h2]
  · intro t h1 h2; simp [extractJson, h1, h2]
  · intro h
    simp only [twoSpanText] at h
    exact absurd (Option.some.inj h) (by decide)

/-- C5 witness: a fenced-and-labeled block wins the chain with the
fenced content as its capture group. -/
theorem extraction_order_amended_witness :
    extractJson fencedText =
      some { full := fencedText, group1 := some "\x7b\"a\": 1\x7d" } :=
  extraction_order_amended.1 fencedText
    { full := fencedText, group1 := some "\x7b\"a\": 1\x7d" } (by decide)

/-- C6: `authReady` starts false, is true after the first upstream event
regardless of its payload, and stays true after every longer event
sequence — the false-to-true transition happens exactly once per process
lifetime. -/
theorem authReady_monotone :
    initialAuthState.authReady = false ∧
    ∀ evs : List (Option FirebaseUser), (runAuth evs).authReady = !evs.isEmpty := by
  refine ⟨rfl, ?_⟩
  intro evs
  cases evs with
  | nil => rfl
  | cons e rest =>
    show (List.foldl stepState (stepState initialAuthState e) rest).authReady = true
    exact foldl_authReady rest _ (stepState_authReady _ _)

/-- C7: the very first upstream auth-state event triggers no navigation;
every subsequent event triggers exactly one navigation — to the
landing resolver route when the mapped user is non-null, to the
signed-out welcome route when it is null. -/
theorem navigation_after_first_event :
    (∀ e, (authStep initialAuthState e).2 = none) ∧
    (∀ evs (fu : FirebaseUser), evs ≠ [] →
      (authStep (runAuth evs) (some fu)).2 = some "/") ∧
    (∀ evs, evs ≠ [] →
      (authStep (runAuth evs) none).2 = some "/(onboarding)/welcome") := by
  refine ⟨fun e => rfl, ?_, ?_⟩
  · intro evs fu h
    simp [authStep, runAuth_initializing evs h, handleAuthNavigation, formatUser]
  · intro evs h
    simp [authStep, runAuth_initializing evs h, handleAuthNavigation, formatUser]

/-- C7 witness: after one boot event, a sign-in event navigates to the
landing resolver route. -/
theorem navigation_after_first_event_witness :
    (authStep (runAuth [none]) (some { uid := "u1", email := none })).2 = some "/" :=
  navigation_after_first_event.2.1 [none] { uid := "u1", email := none }
    (List.cons_ne_nil none [])

/-- C8: each of `signIn`, `signUp`, `signOut`, `deleteAccount` sets
`isLoading=true` on entry (visible as `isLoading=true` in the success
state), and on failure resets `isLoading=false` and re-raises the
failure unchanged; only `deleteAccount` translates exactly the
`auth/requires-recent-login` failure into the re-login instruction,
passing every other failure through untranslated. -/
theorem auth_ops_loading_and_translation :
    (∀ s u, (signIn s (Except.ok u)).1.isLoading = true ∧
      (signIn s (Except.ok u)).2 = Except.ok ()) ∧
    (∀ s e, (signIn s (Except.error e)).1.isLoading = false ∧
      (signIn s (Except.error e)).2 = Except.error e) ∧
    (∀ s u, (signUp s (Except.ok u)).1.isLoading = true ∧
      (signUp s (Except.ok u)).2 = Except.ok ()) ∧
    (∀ s e, (signUp s (Except.error e)).1.isLoading = false ∧
      (signUp s (Except.error e)).2 = Except.error e) ∧
    (∀ s, (signOut s (Except.ok ())).1.isLoading = true ∧
      (signOut s (Except.ok ())).2 = Except.ok ()) ∧
    (∀ s e, (signOut s (Except.error e)).1.isLoading = false ∧
      (signOut s (Except.error e)).2 = Except.error e) ∧
    (∀ s u, (deleteAccount s (some u) (Except.ok ())).1.isLoading = true ∧
      (deleteAccount s (some u) (Except.ok ())).2 = Except.ok ()) ∧
    (∀ s u e, e.code = some "auth/requires-recent-login" →
      deleteAccount s (some u) (Except.error e) =
        ({ s with isLoading := false },
         Except.error { code := none, message := recentLoginMessage })) ∧
    (∀ s u e, e.code ≠ some "auth/requires-recent-login" →
      deleteAccount s (some u) (Except.error e) =
        ({ s with isLoading := false }, Except.error e)) := by
  refine ⟨fun s u => ⟨rfl, rfl⟩, fun s e => ⟨rfl, rfl⟩, fun s u => ⟨rfl, rfl⟩,
    fun s e => ⟨rfl, rfl⟩, fun s => ⟨rfl, rfl⟩, fun s e => ⟨rfl, rfl⟩,
    fun s u => ⟨rfl, rfl⟩, ?_, ?_⟩
  · intro s u e h; simp [deleteAccount, h]
  · intro s u e h; simp [deleteAccount, h]

/-- C8 witness: a concrete `auth/requires-recent-login` failure of
`deleteAccount` is translated into the re-login instruction with
`isLoading` reset. -/
theorem auth_ops_loading_and_translation_witness :
    deleteAccount initialAuthState (some { uid := "u1", email := none })
      (Except.error { code := some "auth/requires-recent-login", message := "sdk" }) =
      ({ initialAuthState with isLoading := false },
       Except.error { code := none, message := recentLoginMessage }) :=
  auth_ops_loading_and_translation.2.2.2.2.2.2.2.1 initialAuthState
    { uid := "u1", email := none }
    { code := some "auth/requires-recent-login", message := "sdk" } rfl

/-- C9 counterexample: on the platform `"web"` with both stored API keys
empty, the platform-appropriate key (the Android key `getApiKey`
returns) is the empty string, yet validation passes and
`configureRevenueCat` calls the billing SDK with that empty key and
returns true — the claim fails as stated. -/
theorem configure_counterexample :
    getApiKey "web" { IOS := "", ANDROID := "" } = "" ∧
    validateRevenueCatConfig "web" { IOS := "", ANDROID := "" } = true ∧
    configureRevenueCat "web" { IOS := "", ANDROID := "" }
      (Except.ok ()) (Except.ok ()) = (true, some "") :=
  ⟨rfl, rfl, rfl⟩

/-- C9 amended: restricted to the platforms `"ios"` and `"android"`, an
empty platform-appropriate key makes `configureRevenueCat` return false
with no SDK call; with a non-empty key the SDK is configured with that
key and — provided the configure call itself succeeds — the result is
true regardless of the warm-up outcome, while a failing configure call
yields false.  (The product, entitlement and offering identifiers are
hardcoded non-empty constants, so their emptiness checks never fire.) -/
theorem configure_amended (os : String) (keys : RCKeys)
    (co wu : Except Unit Unit) (hos : os = "ios" ∨ os = "android") :
    (getApiKey os keys = "" → configureRevenueCat os keys co wu = (false, none)) ∧
    (getApiKey os keys ≠ "" →
      configureRevenueCat os keys (Except.ok ()) wu = (true, some (getApiKey os keys))) ∧
    (getApiKey os keys ≠ "" →
      configureRevenueCat os keys (Except.error ()) wu = (false, some (getApiKey os keys))) := by
  rcases hos with h | h <;> subst h <;>
    refine ⟨?_, ?_, ?_⟩ <;> intro hkey <;>
    simp [getApiKey] at hkey <;>
    cases co <;> cases wu <;>
    simp [configureRevenueCat, validateRevenueCatConfig, getApiKey, hkey,
      RC_PRODUCT_IDS, RC_ENTITLEMENTS, RC_OFFERINGS]

/-- C9 witness: on iOS with a non-empty iOS key the SDK is configured
with that key and the result is true. -/
theorem configure_amended_witness :
    configureRevenueCat "ios" { IOS := "k", ANDROID := "" }
      (Except.ok ()) (Except.ok ()) = (true, some "k") :=
  (configure_amended "ios" { IOS := "k", ANDROID := "" }
    (Except.ok ()) (Except.ok ()) (Or.inl rfl)).2.1 (by decide)

/-- C10: on a platform that is neither `"ios"` nor `"android"`,
`validateRevenueCatConfig` skips both key checks and succeeds for every
key configuration (both keys may be empty), `getApiKey` returns the
Android key, and `configureRevenueCat` always reaches the SDK with that
(possibly empty) Android key. -/
theorem web_skips_key_checks (os : String) (keys : RCKeys)
    (co wu : Except Unit Unit) (h1 : os ≠ "ios") (h2 : os ≠ "android") :
    validateRevenueCatConfig os keys = true ∧
    getApiKey os keys = keys.ANDROID ∧
    (configureRevenueCat os keys co wu).2 = some keys.ANDROID := by
  have hv : validateRevenueCatConfig os keys = true := by
    simp [validateRevenueCatConfig, h1, h2, RC_PRODUCT_IDS, RC_ENTITLEMENTS, RC_OFFERINGS]
  refine ⟨hv, by simp [getApiKey, h1], ?_⟩
  cases co <;> cases wu <;> simp [configureRevenueCat, hv, getApiKey, h1]

/-- C10 witness: on the platform `"web"` with both keys empty the SDK is
reached with the empty Android key. -/
theorem web_skips_key_checks_witness :
    validateRevenueCatConfig "web" { IOS := "", ANDROID := "" } = true ∧
    getApiKey "web" { IOS := "", ANDROID := "" } = "" ∧
    (configureRevenueCat "web" { IOS := "", ANDROID := "" }
      (Except.ok ()) (Except.error ())).2 = some "" :=
  web_skips_key_checks "web" { IOS := "", ANDROID := "" }
    (Except.ok ()) (Except.error ()) (by decide) (by decide)
